import Mathlib

/-!
Shallow embedding of the TravelLines repository:
* the visualization app (`src/unnamed/part_000`): `parseDate`, the `trips`
  row-to-trip mapping, the `filteredTrips` filter and the `analytics`
  aggregation pipeline;
* the geocoding script (`src/scripts/geocodeStops.mjs`): the `guessQuery`
  heuristic, the per-name classification step of `main` and its
  write-after-each-attempt loop.

JavaScript collections are modelled as follows: a JS `Map` / plain-object map
is an association list in insertion order (`mapGet` is the lookup, `mapSet`
replaces in place or appends, as `Map.set` does); a JS `Set` is a
duplicate-free list in insertion order; `Array.prototype.sort` (stable since
ES2019) is a stable insertion sort over the comparator.  String operations
are modelled on the ASCII fragment that occurs in the data, character by
character over `String.toList` (so that every operation reduces).
A JS `Date` value is modelled by its day number (days since 1970-01-01);
comparisons between dates agree with timestamp comparisons.
-/

namespace TravelLines

/-- Membership test on a list of strings (JS `Array.includes` / `Set.has`). -/
def listHas (l : List String) (x : String) : Bool :=
  match l with
  | [] => false
  | y :: ys => y == x || listHas ys x

/-- Lookup in an insertion-ordered association list (JS `Map.get` /
object property read). -/
def mapGet {α : Type} (m : List (String × α)) (k : String) : Option α :=
  match m with
  | [] => none
  | (k', v) :: rest => if k' == k then some v else mapGet rest k

/-- Update in an insertion-ordered association list: replaces the existing
binding in place, else appends (JS `Map.set` / object property write). -/
def mapSet {α : Type} (m : List (String × α)) (k : String) (v : α) :
    List (String × α) :=
  match m with
  | [] => [(k, v)]
  | (k', v') :: rest =>
      if k' == k then (k, v) :: rest else (k', v') :: mapSet rest k v

/-- JS `Set.add`: append if not already present. -/
def setAdd (l : List String) (x : String) : List String :=
  if listHas l x then l else l ++ [x]

/-- Stable insertion of `x` into a list sorted by `le`; an element `y`
already in the list stays in front of `x` whenever `le y x`, so elements
comparing equal keep their original order (ES2019 `sort` is stable). -/
def sortInsert {α : Type} (le : α → α → Bool) (x : α) : List α → List α
  | [] => [x]
  | y :: ys => if le y x then y :: sortInsert le x ys else x :: y :: ys

/-- Stable sort by the boolean relation `le` (`le a b` = `a` may precede
`b`), modelling `Array.prototype.sort` with a consistent comparator. -/
def jsSortBy {α : Type} (le : α → α → Bool) (l : List α) : List α :=
  l.foldl (fun acc x => sortInsert le x acc) []

/-- Character occurs in a character list. -/
def charIn (c : Char) : List Char → Bool
  | [] => false
  | d :: ds => d == c || charIn c ds

/-- JS `String.prototype.includes` with a single-character argument
(`name.includes(',')`). -/
def strContainsChar (s : String) (c : Char) : Bool := charIn c s.toList

/-- Lexicographic code-point order on character lists. -/
def charListLe : List Char → List Char → Bool
  | [], _ => true
  | _ :: _, [] => false
  | a :: as, b :: bs => if a == b then charListLe as bs else decide (a < b)

/-- `String` order as a boolean, modelling the `localeCompare` comparator on
the ASCII stop names by code-point order. -/
def strLe (a b : String) : Bool := charListLe a.toList b.toList

/-- `needle` is a prefix of `hay` (character lists). -/
def takeMatch : List Char → List Char → Bool
  | [], _ => true
  | _ :: _, [] => false
  | a :: as, b :: bs => a == b && takeMatch as bs

/-- `needle` occurs contiguously somewhere in `hay` (character lists). -/
def seekMatch (needle : List Char) : List Char → Bool
  | [] => takeMatch needle []
  | b :: bs => takeMatch needle (b :: bs) || seekMatch needle bs

/-- JS `String.prototype.includes`: `sub` occurs contiguously in `hay`. -/
def strIncludes (hay sub : String) : Bool := seekMatch sub.toList hay.toList

/-- JS `String.prototype.startsWith`. -/
def strStarts (s p : String) : Bool := takeMatch p.toList s.toList

/-- JS `String.prototype.toLowerCase` on the ASCII strings of the data set. -/
def jsToLower (s : String) : String := ⟨s.toList.map Char.toLower⟩

/-- A whitespace character as removed by JS `String.prototype.trim`. -/
def jsSpace (c : Char) : Bool := c == ' ' || c == '\t' || c == '\n' || c == '\r'

/-- JS `String.prototype.trim`: strip whitespace from both ends. -/
def jsTrim (s : String) : String :=
  ⟨((s.toList.dropWhile jsSpace).reverse.dropWhile jsSpace).reverse⟩

/-!  Date model.  `daysFromCivil y m d` is the number of days between
1970-01-01 and the Gregorian date `y-m-d` (for `m ∈ [1,12]`), via the
standard civil-from-days algorithm with floor division.  `jsMakeDay`
mirrors ECMAScript `MakeDay(year, monthIndex, day)` as used by
`new Date(year, month - 1, day)`: the month index is normalized into the
year, and the (possibly out-of-range) day is added as a day offset from the
first of that month — this is exactly the roll-over behaviour of the JS
`Date` constructor. -/

def daysFromCivil (y m d : Int) : Int :=
  let yy := if m ≤ 2 then y - 1 else y
  let era := yy.fdiv 400
  let yoe := yy - era * 400
  let mp := (m + 9).emod 12
  let doy := (153 * mp + 2).fdiv 5 + (d - 1)
  let doe := yoe * 365 + yoe.fdiv 4 - yoe.fdiv 100 + doy
  era * 146097 + doe - 719468

def jsMakeDay (y m d : Int) : Int :=
  let mi := m - 1
  let ym := y + mi.fdiv 12
  let mn := mi.emod 12
  daysFromCivil ym (mn + 1) 1 + (d - 1)

/-- Splitting a character list at a separator character, JS
`String.prototype.split` with a single-character separator (`cur` is the
reversed current field). -/
def splitCharAux (c : Char) : List Char → List Char → List String
  | [], cur => [⟨cur.reverse⟩]
  | d :: ds, cur =>
      if d == c then ⟨cur.reverse⟩ :: splitCharAux c ds []
      else splitCharAux c ds (d :: cur)

/-- JS `value.split('-')`. -/
def splitOnChar (c : Char) (s : String) : List String := splitCharAux c s.toList []

/-- Decimal value of a digit string (JS `Number` on a digit string). -/
def digitsVal (s : String) : Nat :=
  s.toList.foldl (fun n c => n * 10 + (c.toNat - 48)) 0

/-- JS `Number(s)` restricted to the strings produced by splitting a `Datum`
CSV value on `-` (which therefore never contain a sign): the empty string
converts to `0`, a string of decimal digits to its value, and anything else
to `NaN`, modelled as `none`. -/
def jsNumber (s : String) : Option Nat :=
  if s == "" then some 0
  else if s.toList.all Char.isDigit then some (digitsVal s)
  else none

/-- JS falsiness of a destructured, `Number`-mapped date component:
a missing component (`undefined`), a `NaN` component, or the value `0`
are falsy; every other number is truthy. -/
def compFalsy : Option (Option Nat) → Bool
  | none => true
  | some none => true
  | some (some n) => n == 0

/-- `parseDate` from the app (`src/unnamed/part_000`, lines 63-68):
split the value on `-`, convert the first three components with `Number`,
reject if any is falsy, else build `new Date(year, month - 1, day)`
(modelled as a day number, with the constructor's roll-over). -/
def parseDate (value : String) : Option Int :=
  if value == "" then none
  else
    let parts := (splitOnChar '-' value).map jsNumber
    match parts[0]?, parts[1]?, parts[2]? with
    | some (some d), some (some m), some (some y) =>
        if d == 0 || m == 0 || y == 0 then none
        else some (jsMakeDay (Int.ofNat y) (Int.ofNat m) (Int.ofNat d))
    | _, _, _ => none

/-- One parsed CSV row, with the named columns the app reads. -/
structure Row where
  datum : String
  checkIn : String
  checkOut : String
  vertrek : String
  bestemming : String
  transactie : String
  product : String
  kl : String
  opmerking : String
deriving DecidableEq, Repr

/-- One trip object as built by the `trips` memo of the app. -/
structure Trip where
  id : String
  date : Int
  dateLabel : String
  checkIn : String
  checkOut : String
  «from» : String
  «to» : String
  transactie : String
  product : String
  «class» : String
  note : String
deriving DecidableEq, Repr

/-- The trip object built from row `row` at index `i` with parsed date `d`
(`src/unnamed/part_000`, lines 151-166). -/
def mkTripFromRow (i : Nat) (row : Row) (d : Int) : Trip :=
  { id := row.datum ++ "-" ++ row.checkIn ++ "-" ++ toString i
    date := d
    dateLabel := row.datum
    checkIn := row.checkIn
    checkOut := row.checkOut
    «from» := row.vertrek
    «to» := row.bestemming
    transactie := row.transactie
    product := row.product
    «class» := row.kl
    note := row.opmerking }

/-- The `trips` memo (`src/unnamed/part_000`, lines 149-168): each row is
mapped to a trip with its parsed date, and rows whose date does not parse
are filtered out. -/
def trips (rows : List Row) : List Trip :=
  rows.enum.filterMap fun p => (parseDate p.2.datum).map (mkTripFromRow p.1 p.2)

/-- The filter state of the app (`selectedProducts` is a JS `Set`, modelled
as a duplicate-free list; an unset date bound is `none`). -/
structure FilterState where
  includeNonTrips : Bool
  selectedProducts : List String
  dateStart : Option Int
  dateEnd : Option Int
  search : String
deriving DecidableEq, Repr

/-- The filter predicate of `filteredTrips` (`src/unnamed/part_000`,
lines 201-212); `query` is the trimmed, lowercased search text computed
once outside the loop. -/
def tripMatches (st : FilterState) (query : String) (trip : Trip) : Bool :=
  if !st.includeNonTrips && trip.transactie != "Reis" then false
  else if st.selectedProducts.isEmpty then false
  else if !(listHas st.selectedProducts trip.product) then false
  else if (match st.dateStart with
           | some s => decide (trip.date < s)
           | none => false) then false
  else if (match st.dateEnd with
           | some e => decide (e < trip.date)
           | none => false) then false
  else if query != "" then strIncludes (jsToLower (trip.«from» ++ " " ++ trip.«to»)) query
  else true

/-- The `filteredTrips` memo (`src/unnamed/part_000`, lines 199-213). -/
def filteredTrips (st : FilterState) (ts : List Trip) : List Trip :=
  let query := jsToLower (jsTrim st.search)
  ts.filter (tripMatches st query)

/-- A stop coordinate entry as consumed by the app (`{lat, lng}`). -/
structure Coord where
  lat : Int
  lng : Int
deriving DecidableEq, Repr

/-- A route aggregate (`src/unnamed/part_000`, lines 236-244). -/
structure Route where
  «from» : String
  «to» : String
  fromCoord : Coord
  toCoord : Coord
  count : Nat
  products : List (String × Nat)
  dates : List Int
deriving DecidableEq, Repr

/-- A stop aggregate entry (`{name, count, coord}`). -/
structure StopAgg where
  name : String
  count : Nat
  coord : Option Coord
deriving DecidableEq, Repr

/-- A product aggregate entry (`{name, count}`). -/
structure ProductAgg where
  name : String
  count : Nat
deriving DecidableEq, Repr

/-- The mutable maps/set accumulated by the `analytics` loop. -/
structure AnState where
  routeMap : List (String × Route)
  stopMap : List (String × Nat)
  productMap : List (String × Nat)
  missing : List String
deriving DecidableEq, Repr

/-- The result of the `analytics` memo. -/
structure Analytics where
  routes : List Route
  stops : List StopAgg
  products : List ProductAgg
  missing : List String
deriving DecidableEq, Repr

/-- The body of the `filteredTrips.forEach` loop in `analytics`
(`src/unnamed/part_000`, lines 221-252): the product tally counts every
filtered trip; only `Reis` trips with non-empty endpoints go further;
endpoints without a coordinate are recorded in `missing` and the trip is
then dropped; otherwise the route aggregate (keyed by the string
`from ++ " -> " ++ to`) and both stop tallies are updated. -/
def analyticsStep (coords : List (String × Coord)) (st : AnState) (trip : Trip) :
    AnState :=
  let productMap :=
    mapSet st.productMap trip.product ((mapGet st.productMap trip.product).getD 0 + 1)
  if trip.transactie != "Reis" then { st with productMap := productMap }
  else if trip.«from» == "" || trip.«to» == "" then { st with productMap := productMap }
  else
    let fromCoord := mapGet coords trip.«from»
    let toCoord := mapGet coords trip.«to»
    let missing0 := if fromCoord.isNone then setAdd st.missing trip.«from» else st.missing
    let missing1 := if toCoord.isNone then setAdd missing0 trip.«to» else missing0
    match fromCoord, toCoord with
    | some fc, some tc =>
        let routeKey := trip.«from» ++ " -> " ++ trip.«to»
        let route0 := (mapGet st.routeMap routeKey).getD
          { «from» := trip.«from», «to» := trip.«to», fromCoord := fc, toCoord := tc,
            count := 0, products := [], dates := [] }
        let route :=
          { route0 with
            count := route0.count + 1
            products :=
              mapSet route0.products trip.product
                ((mapGet route0.products trip.product).getD 0 + 1)
            dates := route0.dates ++ [trip.date] }
        let stopMap1 :=
          mapSet st.stopMap trip.«from» ((mapGet st.stopMap trip.«from»).getD 0 + 1)
        let stopMap2 :=
          mapSet stopMap1 trip.«to» ((mapGet stopMap1 trip.«to»).getD 0 + 1)
        { routeMap := mapSet st.routeMap routeKey route
          stopMap := stopMap2
          productMap := productMap
          missing := missing1 }
    | _, _ => { st with productMap := productMap, missing := missing1 }

/-- The `analytics` memo (`src/unnamed/part_000`, lines 215-273): fold the
loop body over the filtered trips, then sort routes / stops / products by
descending count (stable) and the missing set ascending. -/
def analytics (coords : List (String × Coord)) (filtered : List Trip) : Analytics :=
  let st := filtered.foldl (analyticsStep coords) ⟨[], [], [], []⟩
  { routes := jsSortBy (fun a b => decide (b.count ≤ a.count)) (st.routeMap.map (·.2))
    stops := jsSortBy (fun a b => decide (b.count ≤ a.count))
      (st.stopMap.map fun p => StopAgg.mk p.1 p.2 (mapGet coords p.1))
    products := jsSortBy (fun a b => decide (b.count ≤ a.count))
      (st.productMap.map fun p => ProductAgg.mk p.1 p.2)
    missing := jsSortBy strLe st.missing }

/-- A journey trip between two stops (transaction type "Reis"), used to
state properties of the route aggregation. -/
def mkJourney (f t p : String) (d : Int) : Trip :=
  { id := "", date := d, dateLabel := "", checkIn := "", checkOut := "",
    «from» := f, «to» := t, transactie := "Reis", product := p, «class» := "",
    note := "" }

/-!  The geocoding script (`src/scripts/geocodeStops.mjs`). -/

/-- The curated override table (`src/scripts/geocodeStops.mjs`, lines 9-46). -/
def overrides : List (String × String) :=
  [ ("1e C. Huygensstraat", "1e Constantijn Huygensstraat, Amsterdam, Netherlands")
  , ("1e Con. Huygensstraat", "1e Constantijn Huygensstraat, Amsterdam, Netherlands")
  , ("Burg. Eliasstraat", "Burgemeester Eliasstraat, Amsterdam, Netherlands")
  , ("Aachen Hbf", "Aachen Hauptbahnhof, Aachen, Germany")
  , ("Amsterdam, Mosplein", "Mosplein, Amsterdam, Netherlands")
  , ("Amsterdam, Stenendokweg", "Stenendokweg, Amsterdam, Netherlands")
  , ("Apeldoorn, De Veenkamp", "De Veenkamp, Apeldoorn, Netherlands")
  , ("Apeldoorn, Gedenknaald", "Gedenknaald, Apeldoorn, Netherlands")
  , ("Apeldoorn, Station", "Station Apeldoorn, Apeldoorn, Netherlands")
  , ("Centraal Station", "Amsterdam Centraal Station, Amsterdam, Netherlands")
  , ("Centrum", "Centrum, Den Haag, Netherlands")
  , ("C. van Eesterenlaan", "C. van Eesterenlaan, Amsterdam, Netherlands")
  , ("Den Helder, Station", "Station Den Helder, Den Helder, Netherlands")
  , ("Den Helder, Steiger Teso", "Steiger TESO, Den Helder, Netherlands")
  , ("Frederik Hendrikplnts", "Frederik Hendrikplantsoen, Amsterdam, Netherlands")
  , ("Heemstede, Stat.Heemstede-Aerd", "Station Heemstede-Aerdenhout, Heemstede, Netherlands")
  , ("J.P. Heijestraat", "Jan Pieter Heijestraat, Amsterdam, Netherlands")
  , ("Kievitslaan", "Kievitslaan, Rotterdam, Netherlands")
  , ("muziekgebouw Bimhuis", "Bimhuis, Amsterdam, Netherlands")
  , ("Noord", "Amsterdam Noord, Amsterdam, Netherlands")
  , ("Purmerend, Anne Franklaan", "Anne Franklaan, Purmerend, Netherlands")
  , ("Purmerend, Churchilllaan", "Churchilllaan, Purmerend, Netherlands")
  , ("Purmerend, Kelvinstraat", "Kelvinstraat, Purmerend, Netherlands")
  , ("Purmerend, Station Overwhere", "Station Overwhere, Purmerend, Netherlands")
  , ("Purmerend, Tramplein", "Tramplein, Purmerend, Netherlands")
  , ("Purmerend, Veenweidestraat", "Veenweidestraat, Purmerend, Netherlands")
  , ("Schev.slag/beelden aan Zee", "Beelden aan Zee, Scheveningen, Den Haag, Netherlands")
  , ("Station Blaak", "Rotterdam Blaak, Rotterdam, Netherlands")
  , ("Station Hollands Spoor", "Den Haag Hollands Spoor, Den Haag, Netherlands")
  , ("Station Lelylaan", "Amsterdam Lelylaan, Amsterdam, Netherlands")
  , ("Station Mariahoeve", "Den Haag Mariahoeve, Den Haag, Netherlands")
  , ("Station Zuid", "Amsterdam Zuid, Amsterdam, Netherlands")
  , ("Van der Woertstraat", "Van der Woertstraat, Den Haag, Netherlands")
  , ("Vogelenzang, Waterleiding", "Waterleiding, Vogelenzang, Netherlands")
  , ("Zandvoort, Waterleiding/nw. Un", "Waterleiding, Zandvoort, Netherlands")
  , ("Zandvoort, Zandvoort Centrum", "Zandvoort Centrum, Zandvoort, Netherlands") ]

/-- Den Haag stop-name set (`src/scripts/geocodeStops.mjs`, lines 48-64). -/
def denHaagStops : List String :=
  [ "Bierkade", "Hofzichtlaan", "Kievitslaan", "Kneuterdijk", "Kunstmuseum"
  , "Kurhaus", "Schev.slag/beelden aan Zee", "Statenplein", "Vredespaleis"
  , "Den Haag HS", "Den Haag Centraal", "Den Haag Mariahoeve"
  , "Station Hollands Spoor", "Station Mariahoeve", "Centrum" ]

/-- Rotterdam stop-name set (`src/scripts/geocodeStops.mjs`, lines 66-78). -/
def rotterdamStops : List String :=
  [ "Kruisplein", "Leuvehaven", "Nieuwe Haven", "Vasteland", "Weena"
  , "Witte de Withstraat", "Woudestein", "Museumpark", "Rotterdam Centraal"
  , "Rotterdam Blaak", "Station Blaak" ]

/-- Purmerend stop-name set (`src/scripts/geocodeStops.mjs`, lines 80-89). -/
def purmerendStops : List String :=
  [ "Purmerend Overwhere", "Purmerend, Anne Franklaan", "Purmerend, Churchilllaan"
  , "Purmerend, Kelvinstraat", "Purmerend, Signaal", "Purmerend, Station Overwhere"
  , "Purmerend, Tramplein", "Purmerend, Veenweidestraat" ]

/-- Zandvoort stop-name set (`src/scripts/geocodeStops.mjs`, lines 91-95). -/
def zandvoortStops : List String :=
  [ "Zandvoort, Waterleiding/nw. Un", "Zandvoort, Zandvoort Centrum"
  , "Zandvoort aan Zee" ]

/-- City-name prefix list (`src/scripts/geocodeStops.mjs`, lines 97-125). -/
def allCityPrefixes : List String :=
  [ "Amsterdam", "Rotterdam", "Den Haag", "Purmerend", "Zaandam", "Zandvoort"
  , "Apeldoorn", "Arnhem", "Breda", "Delft", "Enschede", "Haarlem", "Heerlen"
  , "Maastricht", "Nijmegen", "Aachen", "Alkmaar", "Den Helder", "Schiphol"
  , "Velp", "Dieren", "Uitgeest", "Overveen", "Santpoort Noord"
  , "Heemstede-Aerdenhout", "Zaandijk Zaanse Schans", "Mook-Molenhoek" ]

/-- `guessQuery` (`src/scripts/geocodeStops.mjs`, lines 127-139): priority
order is sentinel / falsy name, override table, embedded comma, city-name
prefix, the four per-city sets, and the Amsterdam fallback. -/
def guessQuery (name : String) : Option String :=
  if name == "" || name == "Onbekend" then none
  else
    match mapGet overrides name with
    | some q => some q
    | none =>
      if strContainsChar name ',' then some (name ++ ", Netherlands")
      else if allCityPrefixes.any (fun p => strStarts name p) then
        some (name ++ ", Netherlands")
      else if listHas denHaagStops name then some (name ++ ", Den Haag, Netherlands")
      else if listHas rotterdamStops name then some (name ++ ", Rotterdam, Netherlands")
      else if listHas purmerendStops name then some (name ++ ", Purmerend, Netherlands")
      else if listHas zandvoortStops name then some (name ++ ", Zandvoort, Netherlands")
      else some (name ++ ", Amsterdam, Netherlands")

/-- A successful geocoding result as stored by the script
(`src/scripts/geocodeStops.mjs`, lines 204-209). -/
structure GeoEntry where
  lat : Int
  lng : Int
  label : String
  query : String
deriving DecidableEq, Repr

/-- The outcome of one call to `geocode`: a result, an empty result list
(`geocode` returns `null`), or a thrown error (request failure or non-ok
response status). -/
inductive GeoOutcome where
  | ok (e : GeoEntry)
  | noResults
  | error
deriving DecidableEq, Repr

/-- The persisted stop-coordinate store
(`{ generatedAt, stops, unmatched }`). -/
structure Store where
  generatedAt : String
  stops : List (String × GeoEntry)
  unmatched : List String
deriving DecidableEq, Repr

/-- What one iteration of the `main` loop did with its name. -/
inductive StepAction where
  | skipped
  | noQuery
  | resolved (e : GeoEntry)
  | noMatch
  | failed
deriving DecidableEq, Repr

/-- The observable events of one iteration of the `main` loop: the name it
processed, what it did, whether it issued a geocoding request, the store it
durably wrote during the iteration (if any), and the in-memory store after
the iteration. -/
structure StepRec where
  name : String
  action : StepAction
  issuedRequest : Bool
  wroteStore : Option Store
  postStore : Store
deriving DecidableEq, Repr

/-- The skip condition of the `main` loop
(`output.stops[name] || output.unmatched.includes(name)`). -/
def classified (out : Store) (name : String) : Bool :=
  (mapGet out.stops name).isSome || listHas out.unmatched name

/-- One iteration of the `for (const name of stops)` loop of `main`
(`src/scripts/geocodeStops.mjs`, lines 229-251), with the geocoder modelled
by `oracle` (a function of the query string).  Already-classified names are
skipped; a `null` query pushes the name onto `unmatched` and `continue`s
before the `writeFile`; otherwise the geocode outcome classifies the name
and the whole store is written (`fs.writeFile`) before the next name. -/
def processName (oracle : String → GeoOutcome) (out : Store) (name : String) :
    Store × StepRec :=
  if classified out name then
    (out, { name := name, action := .skipped, issuedRequest := false,
            wroteStore := none, postStore := out })
  else
    match guessQuery name with
    | none =>
        let out' := { out with unmatched := out.unmatched ++ [name] }
        (out', { name := name, action := .noQuery, issuedRequest := false,
                 wroteStore := none, postStore := out' })
    | some query =>
        match oracle query with
        | .ok e =>
            let out' := { out with stops := mapSet out.stops name e }
            (out', { name := name, action := .resolved e, issuedRequest := true,
                     wroteStore := some out', postStore := out' })
        | .noResults =>
            let out' := { out with unmatched := out.unmatched ++ [name] }
            (out', { name := name, action := .noMatch, issuedRequest := true,
                     wroteStore := some out', postStore := out' })
        | .error =>
            let out' := { out with unmatched := out.unmatched ++ [name] }
            (out', { name := name, action := .failed, issuedRequest := true,
                     wroteStore := some out', postStore := out' })

/-- The full `main` loop over the (deduplicated, sorted) stop names, with
the trace of per-iteration records. -/
def runResolver (oracle : String → GeoOutcome) (out : Store) :
    List String → Store × List StepRec
  | [] => (out, [])
  | n :: rest =>
      let step := processName oracle out n
      let next := runResolver oracle step.1 rest
      (next.1, step.2 :: next.2)

/-- The `output` object `main` starts from (`src/scripts/geocodeStops.mjs`,
lines 223-227): a fresh timestamp and a copy of the existing classification
state. -/
def initOutput (now : String) (existing : Store) : Store :=
  { generatedAt := now, stops := existing.stops, unmatched := existing.unmatched }

/-- Invariant of the store: no name is both a key of `stops` and an element
of `unmatched`. -/
def storeDisjoint (out : Store) : Prop :=
  ∀ n : String, (mapGet out.stops n).isSome = true → listHas out.unmatched n = false

/-!  Helper lemmas about the JS-collection model. -/

theorem listHas_iff_mem (l : List String) (x : String) :
    listHas l x = true ↔ x ∈ l := by
  induction l with
  | nil => simp [listHas]
  | cons y ys ih =>
      simp [listHas, ih, Bool.or_eq_true, beq_iff_eq]
      constructor
      · rintro (h | h)
        · exact Or.inl h.symm
        · exact Or.inr h
      · rintro (h | h)
        · exact Or.inl h.symm
        · exact Or.inr h

theorem listHas_append (l l' : List String) (x : String) :
    listHas (l ++ l') x = (listHas l x || listHas l' x) := by
  induction l with
  | nil => simp [listHas]
  | cons y ys ih => simp [listHas, ih, Bool.or_assoc]

theorem mapGet_mapSet_self {α : Type} (m : List (String × α)) (k : String) (v : α) :
    mapGet (mapSet m k v) k = some v := by
  induction m with
  | nil => simp [mapGet, mapSet]
  | cons p rest ih =>
      obtain ⟨k', v'⟩ := p
      by_cases h : k' = k
      · simp [mapGet, mapSet, h]
      · simp [mapGet, mapSet, h, ih]

theorem mapGet_mapSet_ne {α : Type} (m : List (String × α)) (k k' : String) (v : α)
    (h : k' ≠ k) : mapGet (mapSet m k v) k' = mapGet m k' := by
  have h' : k ≠ k' := Ne.symm h
  induction m with
  | nil => simp [mapGet, mapSet, h']
  | cons p rest ih =>
      obtain ⟨k₀, v₀⟩ := p
      by_cases h0 : k₀ = k
      · subst h0
        simp [mapGet, mapSet, h']
      · by_cases h1 : k₀ = k'
        · simp [mapGet, mapSet, h0, h1, h]
        · simp [mapGet, mapSet, h0, h1, ih]

theorem mem_setAdd_self (l : List String) (x : String) : x ∈ setAdd l x := by
  unfold setAdd
  by_cases h : listHas l x = true
  · simpa [h] using (listHas_iff_mem l x).mp h
  · simp [h]

theorem mem_setAdd_of_mem (l : List String) (x y : String) (h : y ∈ l) :
    y ∈ setAdd l x := by
  unfold setAdd
  by_cases hc : listHas l x = true <;> simp [hc, h]

theorem mem_sortInsert {α : Type} (le : α → α → Bool) (x a : α) (l : List α) :
    a ∈ sortInsert le x l ↔ a = x ∨ a ∈ l := by
  induction l with
  | nil => simp [sortInsert]
  | cons y ys ih =>
      by_cases h : le y x = true
      · simp only [sortInsert, h, if_true, List.mem_cons, ih]
        tauto
      · simp [sortInsert, h]

theorem mem_jsSortBy {α : Type} (le : α → α → Bool) (l : List α) (a : α) :
    a ∈ jsSortBy le l ↔ a ∈ l := by
  have key : ∀ (l acc : List α),
      a ∈ l.foldl (fun acc x => sortInsert le x acc) acc ↔ a ∈ acc ∨ a ∈ l := by
    intro l
    induction l with
    | nil => simp
    | cons y ys ih =>
        intro acc
        simp only [List.foldl_cons, ih, mem_sortInsert, List.mem_cons]
        tauto
  simpa [jsSortBy] using key l []

/-!  Lemmas about the resolver loop. -/

theorem processName_disjoint (oracle : String → GeoOutcome) (out : Store)
    (name : String) (h : storeDisjoint out) :
    storeDisjoint (processName oracle out name).1 := by
  unfold processName
  by_cases hc : classified out name = true
  · simp [hc]; exact h
  · have hstops : (mapGet out.stops name).isSome = false := by
      unfold classified at hc
      simp only [Bool.or_eq_true, not_or, Bool.not_eq_true] at hc
      exact hc.1
    have hunm : listHas out.unmatched name = false := by
      unfold classified at hc
      simp only [Bool.or_eq_true, not_or, Bool.not_eq_true] at hc
      exact hc.2
    have hpush : storeDisjoint { out with unmatched := out.unmatched ++ [name] } := by
      intro n hn
      simp only at hn
      simp only [listHas_append]
      have := h n hn
      simp [this, listHas]
      intro heq
      subst heq
      rw [hn] at hstops
      cases hstops
    simp only [Bool.not_eq_true] at hc
    simp only [hc, Bool.false_eq_true, if_false]
    cases hq : guessQuery name with
    | none => exact hpush
    | some q =>
        cases ho : oracle q with
        | ok e =>
            simp only [ho]
            intro n hn
            simp only at hn ⊢
            by_cases hne : n = name
            · subst hne
              exact hunm
            · rw [mapGet_mapSet_ne out.stops name n e hne] at hn
              exact h n hn
        | noResults => simp only [ho]; exact hpush
        | error => simp only [ho]; exact hpush

theorem runResolver_disjoint (oracle : String → GeoOutcome) (names : List String)
    (out : Store) (h : storeDisjoint out) :
    storeDisjoint (runResolver oracle out names).1 := by
  induction names generalizing out with
  | nil => exact h
  | cons n rest ih =>
      exact ih (processName oracle out n).1 (processName_disjoint oracle out n h)

theorem processName_skip (oracle : String → GeoOutcome) (out : Store) (name : String)
    (h : classified out name = true) :
    processName oracle out name =
      (out, { name := name, action := .skipped, issuedRequest := false,
              wroteStore := none, postStore := out }) := by
  unfold processName
  simp [h]

theorem processName_one_side (oracle : String → GeoOutcome) (out : Store)
    (name : String) :
    (processName oracle out name).1.stops = out.stops ∨
    (processName oracle out name).1.unmatched = out.unmatched := by
  unfold processName
  by_cases hc : classified out name = true
  · simp [hc]
  · simp only [Bool.not_eq_true] at hc
    simp only [hc, Bool.false_eq_true, if_false]
    cases hq : guessQuery name with
    | none => left; rfl
    | some q =>
        cases ho : oracle q with
        | ok e => dsimp only; rw [ho]; right; rfl
        | noResults => dsimp only; rw [ho]; left; rfl
        | error => dsimp only; rw [ho]; left; rfl

/-- C4: after any run of the resolver starting from a store in which no name
is both a key of `stops` and an element of `unmatched` (in particular the
empty store), the resulting store still has no name in both sets; moreover
every classification step changes at most one of the two sets, and a name
already classified is skipped without touching the store. -/
theorem resolver_store_disjoint (oracle : String → GeoOutcome) (out : Store)
    (names : List String) (h : storeDisjoint out) :
    storeDisjoint (runResolver oracle out names).1 ∧
    (∀ name, classified out name = true →
      processName oracle out name =
        (out, { name := name, action := .skipped, issuedRequest := false,
                wroteStore := none, postStore := out })) ∧
    (∀ name, (processName oracle out name).1.stops = out.stops ∨
      (processName oracle out name).1.unmatched = out.unmatched) := by
  exact ⟨runResolver_disjoint oracle names out h,
         fun name hn => processName_skip oracle out name hn,
         fun name => processName_one_side oracle out name⟩

theorem resolver_store_disjoint_witness :
    storeDisjoint (runResolver (fun _ => GeoOutcome.error)
      ⟨"t0", [], []⟩ ["Onbekend", "Bloemstraat", "Centrum"]).1 :=
  (resolver_store_disjoint (fun _ => GeoOutcome.error) ⟨"t0", [], []⟩
    ["Onbekend", "Bloemstraat", "Centrum"] (fun n h => by simp [mapGet] at h)).1

/-- C5 counterexample: for the sentinel name "Onbekend" the resolver does
produce no query, but the `main` loop then pushes the name onto the
`unmatched` list (the `if (!query)` branch), so the claim that it is added
to neither set is false: starting from the empty store, the store after the
step has `unmatched = ["Onbekend"]`. -/
theorem resolver_sentinel_counterexample :
    guessQuery "Onbekend" = none ∧
    (processName (fun _ => GeoOutcome.error) ⟨"t0", [], []⟩ "Onbekend").1.unmatched
      = ["Onbekend"] ∧
    ¬ ((processName (fun _ => GeoOutcome.error) ⟨"t0", [], []⟩
        "Onbekend").1.unmatched = []) := by
  refine ⟨rfl, rfl, ?_⟩
  decide

/-- C5 (amended): for an unclassified sentinel name "Onbekend" the resolver
produces no query and issues no geocoding request, and never adds the name
to the `stops` mapping — but it does append the name to the `unmatched`
list (so it does appear in the store, in `unmatched` only). -/
theorem resolver_sentinel_unmatched (oracle : String → GeoOutcome) (out : Store)
    (h : classified out "Onbekend" = false) :
    guessQuery "Onbekend" = none ∧
    processName oracle out "Onbekend" =
      ({ out with unmatched := out.unmatched ++ ["Onbekend"] },
       { name := "Onbekend", action := .noQuery, issuedRequest := false,
         wroteStore := none,
         postStore := { out with unmatched := out.unmatched ++ ["Onbekend"] } }) := by
  constructor
  · rfl
  · unfold processName
    simp [h]
    rfl

theorem resolver_sentinel_unmatched_witness :
    processName (fun _ => GeoOutcome.error) ⟨"t0", [], []⟩ "Onbekend" =
      (⟨"t0", [], ["Onbekend"]⟩,
       { name := "Onbekend", action := .noQuery, issuedRequest := false,
         wroteStore := none, postStore := ⟨"t0", [], ["Onbekend"]⟩ }) :=
  (resolver_sentinel_unmatched (fun _ => GeoOutcome.error) ⟨"t0", [], []⟩ rfl).2

/-- C6 counterexample: in the run over `["Onbekend", "Bloemstraat"]` from the
empty store, the first iteration classifies "Onbekend" (pushes it onto
`unmatched`) but `continue`s before the `fs.writeFile`, so the second name
is processed while the first name's classification is unwritten.  The
claimed property — every classifying step durably writes the store before
the next name — is false for this run. -/
theorem resolver_write_counterexample :
    ¬ (∀ r ∈ (runResolver (fun _ => GeoOutcome.error) ⟨"t0", [], []⟩
          ["Onbekend", "Bloemstraat"]).2,
        r.action ≠ StepAction.skipped → r.wroteStore = some r.postStore) := by
  decide

/-- C6 (amended): after every resolution attempt that issues a geocoding
request (success, no-match, or error), the entire store is rewritten to
durable storage before the next name is attempted; only names classified
without a request (skip or the null-query path) defer the write. -/
theorem resolver_write_after_request (oracle : String → GeoOutcome) (out : Store)
    (names : List String) :
    ((runResolver oracle out names).2.all fun r =>
      !r.issuedRequest || (r.wroteStore == some r.postStore)) = true := by
  induction names generalizing out with
  | nil => rfl
  | cons n rest ih =>
      simp only [runResolver, List.all_cons, Bool.and_eq_true]
      refine ⟨?_, ih (processName oracle out n).1⟩
      unfold processName
      by_cases hc : classified out n = true
      · simp [hc]
      · simp only [Bool.not_eq_true] at hc
        simp only [hc, Bool.false_eq_true, if_false]
        cases hq : guessQuery n with
        | none => rfl
        | some q => cases ho : oracle q <;> simp [ho]

/-- C7: rerunning the resolver on names that are all already classified in
the store performs zero geocoding requests (every step is a skip) and
leaves the `stops` mapping and `unmatched` list unchanged; the output store
differs from the existing one at most in the `generatedAt` timestamp. -/
theorem resolver_rerun_idempotent (oracle : String → GeoOutcome) (now : String)
    (existing : Store) (names : List String)
    (h : ∀ n ∈ names, classified (initOutput now existing) n = true) :
    (runResolver oracle (initOutput now existing) names).1.stops = existing.stops ∧
    (runResolver oracle (initOutput now existing) names).1.unmatched
      = existing.unmatched ∧
    (runResolver oracle (initOutput now existing) names).1.generatedAt = now ∧
    (∀ r ∈ (runResolver oracle (initOutput now existing) names).2,
      r.issuedRequest = false ∧ r.action = StepAction.skipped) := by
  have key : ∀ (ns : List String) (st : Store), (∀ n ∈ ns, classified st n = true) →
      (runResolver oracle st ns).1 = st ∧
      (∀ r ∈ (runResolver oracle st ns).2,
        r.issuedRequest = false ∧ r.action = StepAction.skipped) := by
    intro ns
    induction ns with
    | nil => intro st _; exact ⟨rfl, by intro r hr; cases hr⟩
    | cons n rest ih =>
        intro st hst
        have hn : classified st n = true := hst n (List.mem_cons_self n rest)
        have hskip := processName_skip oracle st n hn
        have hrest : ∀ m ∈ rest, classified st m = true := by
          intro m hm; exact hst m (List.mem_cons_of_mem n hm)
        simp only [runResolver, hskip]
        obtain ⟨h1, h2⟩ := ih st hrest
        refine ⟨h1, ?_⟩
        intro r hr
        rcases List.mem_cons.mp hr with hr | hr
        · subst hr; exact ⟨rfl, rfl⟩
        · exact h2 r hr
  obtain ⟨h1, h2⟩ := key names (initOutput now existing) h
  rw [h1]
  exact ⟨rfl, rfl, rfl, h2⟩

theorem resolver_rerun_idempotent_witness :
    (runResolver (fun _ => GeoOutcome.error)
      (initOutput "t1" ⟨"t0", [("Noord", ⟨1, 2, "lbl", "q"⟩)], ["Bierkade"]⟩)
      ["Noord", "Bierkade"]).1.stops
      = [("Noord", ⟨1, 2, "lbl", "q"⟩)] ∧
    (runResolver (fun _ => GeoOutcome.error)
      (initOutput "t1" ⟨"t0", [("Noord", ⟨1, 2, "lbl", "q"⟩)], ["Bierkade"]⟩)
      ["Noord", "Bierkade"]).1.unmatched = ["Bierkade"] :=
  ⟨(resolver_rerun_idempotent (fun _ => GeoOutcome.error) "t1"
      ⟨"t0", [("Noord", ⟨1, 2, "lbl", "q"⟩)], ["Bierkade"]⟩
      ["Noord", "Bierkade"] (by decide)).1,
   (resolver_rerun_idempotent (fun _ => GeoOutcome.error) "t1"
      ⟨"t0", [("Noord", ⟨1, 2, "lbl", "q"⟩)], ["Bierkade"]⟩
      ["Noord", "Bierkade"] (by decide)).2.1⟩

/-- C8 counterexample: the name "Onbekend" satisfies every condition of the
claim (no comma, not an override key, no city prefix, in none of the four
city stop sets) and yet the guessed query is `null`, not a string ending in
", Amsterdam, Netherlands"; the falsy name "" is the same. -/
theorem guessQuery_fallback_counterexample :
    strContainsChar "Onbekend" ',' = false ∧
    mapGet overrides "Onbekend" = none ∧
    (allCityPrefixes.any fun p => strStarts "Onbekend" p) = false ∧
    listHas denHaagStops "Onbekend" = false ∧
    listHas rotterdamStops "Onbekend" = false ∧
    listHas purmerendStops "Onbekend" = false ∧
    listHas zandvoortStops "Onbekend" = false ∧
    guessQuery "Onbekend" = none := by
  refine ⟨by decide, by decide, by decide, by decide, by decide, by decide,
    by decide, rfl⟩

/-- C8 (amended): for every stop name that is non-empty, is not the sentinel
"Onbekend", contains no comma, is not an override key, starts with no city
prefix and is in none of the four city stop sets, the guessed query is the
name followed by ", Amsterdam, Netherlands" (and hence ends with it). -/
theorem guessQuery_amsterdam_fallback (name : String)
    (h0 : name ≠ "") (h1 : name ≠ "Onbekend")
    (h2 : strContainsChar name ',' = false)
    (h3 : mapGet overrides name = none)
    (h4 : (allCityPrefixes.any fun p => strStarts name p) = false)
    (h5 : listHas denHaagStops name = false)
    (h6 : listHas rotterdamStops name = false)
    (h7 : listHas purmerendStops name = false)
    (h8 : listHas zandvoortStops name = false) :
    guessQuery name = some (name ++ ", Amsterdam, Netherlands") := by
  unfold guessQuery
  simp [h0, h1, h2, h3, h4, h5, h6, h7, h8]

theorem guessQuery_amsterdam_fallback_witness :
    guessQuery "Bloemstraat" = some "Bloemstraat, Amsterdam, Netherlands" :=
  guessQuery_amsterdam_fallback "Bloemstraat" (by decide) (by decide) (by decide)
    (by decide) (by decide) (by decide) (by decide) (by decide) (by decide)

/-- C9: for an unclassified non-sentinel name whose geocoding lookup fails —
the request errors / the response has a non-success status (both modelled as
`GeoOutcome.error`, since a non-ok status makes `geocode` throw) or the
response has zero results (`GeoOutcome.noResults`) — the name is classified
as unmatched (appended to `unmatched`, with `stops` untouched), and the run
continues with the remaining names. -/
theorem resolver_lookup_failure_nonfatal (oracle : String → GeoOutcome)
    (out : Store) (name q : String) (rest : List String)
    (h1 : classified out name = false)
    (h2 : guessQuery name = some q)
    (h3 : oracle q = GeoOutcome.noResults ∨ oracle q = GeoOutcome.error) :
    (processName oracle out name).1
      = { out with unmatched := out.unmatched ++ [name] } ∧
    runResolver oracle out (name :: rest) =
      ((runResolver oracle (processName oracle out name).1 rest).1,
       (processName oracle out name).2 ::
         (runResolver oracle (processName oracle out name).1 rest).2) := by
  constructor
  · unfold processName
    simp only [h1, Bool.false_eq_true, if_false, h2]
    rcases h3 with h3 | h3 <;> rw [h3]
  · rfl

theorem resolver_lookup_failure_nonfatal_witness :
    (processName (fun _ => GeoOutcome.noResults) ⟨"t0", [], []⟩ "Bloemstraat").1
      = ⟨"t0", [], ["Bloemstraat"]⟩ :=
  (resolver_lookup_failure_nonfatal (fun _ => GeoOutcome.noResults)
    ⟨"t0", [], []⟩ "Bloemstraat" "Bloemstraat, Amsterdam, Netherlands" []
    (by decide) (by decide) (Or.inl rfl)).1

/-!  Lemmas about the analytics fold. -/

theorem analyticsStep_missing_mono (coords : List (String × Coord)) (st : AnState)
    (t : Trip) (x : String) (h : x ∈ st.missing) :
    x ∈ (analyticsStep coords st t).missing := by
  simp only [analyticsStep]
  repeat' split
  all_goals
    simp only
    first
      | exact h
      | exact mem_setAdd_of_mem _ _ _ h
      | exact mem_setAdd_of_mem _ _ _ (mem_setAdd_of_mem _ _ _ h)

theorem foldl_missing_mono (coords : List (String × Coord)) (l : List Trip)
    (st : AnState) (x : String) (h : x ∈ st.missing) :
    x ∈ (l.foldl (analyticsStep coords) st).missing := by
  induction l generalizing st with
  | nil => exact h
  | cons t ts ih =>
      exact ih (analyticsStep coords st t) (analyticsStep_missing_mono coords st t x h)

theorem analyticsStep_missing_coord (coords : List (String × Coord)) (st : AnState)
    (t : Trip) (ht : t.transactie = "Reis") (hf : t.«from» ≠ "") (hto : t.«to» ≠ "")
    (hmiss : mapGet coords t.«from» = none ∨ mapGet coords t.«to» = none) :
    (analyticsStep coords st t).routeMap = st.routeMap ∧
    (analyticsStep coords st t).stopMap = st.stopMap ∧
    (mapGet coords t.«from» = none → t.«from» ∈ (analyticsStep coords st t).missing) ∧
    (mapGet coords t.«to» = none → t.«to» ∈ (analyticsStep coords st t).missing) := by
  have hbne : (t.transactie != "Reis") = false := by simp [ht]
  have hor : (t.«from» == "" || t.«to» == "") = false := by simp [hf, hto]
  rcases hcf : mapGet coords t.«from» with _ | fc <;>
    rcases hct : mapGet coords t.«to» with _ | tc
  · have e : analyticsStep coords st t =
        { st with
          productMap := mapSet st.productMap t.product
            ((mapGet st.productMap t.product).getD 0 + 1)
          missing := setAdd (setAdd st.missing t.«from») t.«to» } := by
      simp only [analyticsStep, hbne, hor, Bool.false_eq_true, if_false, hcf, hct,
        Option.isNone_none, if_true]
    rw [e]
    exact ⟨rfl, rfl, fun _ => mem_setAdd_of_mem _ _ _ (mem_setAdd_self _ _),
      fun _ => mem_setAdd_self _ _⟩
  · have e : analyticsStep coords st t =
        { st with
          productMap := mapSet st.productMap t.product
            ((mapGet st.productMap t.product).getD 0 + 1)
          missing := setAdd st.missing t.«from» } := by
      simp only [analyticsStep, hbne, hor, Bool.false_eq_true, if_false, hcf, hct,
        Option.isNone_none, Option.isNone_some, if_true, if_false]
    rw [e]
    exact ⟨rfl, rfl, fun _ => mem_setAdd_self _ _, fun h => absurd h (by simp)⟩
  · have e : analyticsStep coords st t =
        { st with
          productMap := mapSet st.productMap t.product
            ((mapGet st.productMap t.product).getD 0 + 1)
          missing := setAdd st.missing t.«to» } := by
      simp only [analyticsStep, hbne, hor, Bool.false_eq_true, if_false, hcf, hct,
        Option.isNone_none, Option.isNone_some, if_true, if_false]
    rw [e]
    exact ⟨rfl, rfl, fun h => absurd h (by simp), fun _ => mem_setAdd_self _ _⟩
  · rw [hcf, hct] at hmiss
    rcases hmiss with h | h <;> exact absurd h (by simp)

/-- C2: a filtered `Reis` trip with non-empty endpoint names, at least one of
which has no coordinate, contributes to no route aggregate and increments no
stop tally (the fold step leaves `routeMap` and `stopMap` unchanged), while
each endpoint that lacks a coordinate ends up in the missing-coordinate set
of the analytics result. -/
theorem analytics_missing_coordinate (coords : List (String × Coord))
    (filtered : List Trip) (trip : Trip) (hmem : trip ∈ filtered)
    (ht : trip.transactie = "Reis") (hf : trip.«from» ≠ "") (hto : trip.«to» ≠ "")
    (hmiss : mapGet coords trip.«from» = none ∨ mapGet coords trip.«to» = none) :
    (∀ st : AnState, (analyticsStep coords st trip).routeMap = st.routeMap ∧
       (analyticsStep coords st trip).stopMap = st.stopMap) ∧
    (mapGet coords trip.«from» = none →
      trip.«from» ∈ (analytics coords filtered).missing) ∧
    (mapGet coords trip.«to» = none →
      trip.«to» ∈ (analytics coords filtered).missing) := by
  obtain ⟨l1, l2, rfl⟩ := List.append_of_mem hmem
  have hstep := fun st => analyticsStep_missing_coord coords st trip ht hf hto hmiss
  refine ⟨fun st => ⟨(hstep st).1, (hstep st).2.1⟩, ?_, ?_⟩
  all_goals
    intro hnone
    show _ ∈ (analytics coords (l1 ++ trip :: l2)).missing
    simp only [analytics, mem_jsSortBy, List.foldl_append, List.foldl_cons]
    apply foldl_missing_mono
  · exact (hstep (l1.foldl (analyticsStep coords) ⟨[], [], [], []⟩)).2.2.1 hnone
  · exact (hstep (l1.foldl (analyticsStep coords) ⟨[], [], [], []⟩)).2.2.2 hnone

theorem analytics_missing_coordinate_witness :
    ("Aaa" ∈ (analytics []
      [{ id := "", date := 0, dateLabel := "", checkIn := "", checkOut := "",
         «from» := "Aaa", «to» := "Bbb", transactie := "Reis", product := "P",
         «class» := "", note := "" }]).missing) ∧
    ("Bbb" ∈ (analytics []
      [{ id := "", date := 0, dateLabel := "", checkIn := "", checkOut := "",
         «from» := "Aaa", «to» := "Bbb", transactie := "Reis", product := "P",
         «class» := "", note := "" }]).missing) :=
  ⟨(analytics_missing_coordinate [] _ _ (List.mem_singleton.mpr rfl) rfl
      (by decide) (by decide) (Or.inl rfl)).2.1 rfl,
   (analytics_missing_coordinate [] _ _ (List.mem_singleton.mpr rfl) rfl
      (by decide) (by decide) (Or.inl rfl)).2.2 rfl⟩

/-- C3 counterexample: the route aggregate is keyed by the string
`from ++ " -> " ++ to`, and for the distinct stop names `A = "a -> a"` and
`B = "a"` (both with coordinates) the two directions produce the same key
`"a -> a -> a"`, so three A→B journeys and two B→A journeys are merged into
a single aggregate with count 5 — the claim that the two directions are
never merged fails for such names. -/
theorem analytics_route_direction_counterexample :
    ("a -> a" ≠ "a") ∧
    ((analytics [("a -> a", ⟨1, 2⟩), ("a", ⟨3, 4⟩)]
      [mkJourney "a -> a" "a" "P" 0, mkJourney "a -> a" "a" "P" 0,
       mkJourney "a -> a" "a" "P" 0, mkJourney "a" "a -> a" "P" 0,
       mkJourney "a" "a -> a" "P" 0]).routes.map
        fun r => (r.«from», r.«to», r.count)) = [("a -> a", "a", 5)] := by
  exact ⟨by decide, by decide⟩

/-- C3 (amended): for every pair of distinct, non-empty stop names whose two
derived route keys `A ++ " -> " ++ B` and `B ++ " -> " ++ A` differ (which
holds for all real stop names — it can only fail when a name itself contains
the separator `" -> "`), both with coordinates, three filtered A→B journeys
and two B→A journeys produce exactly two route aggregates, with counts 3
and 2, never a merged aggregate of 5. -/
theorem analytics_route_direction (A B : String) (fc tc : Coord) (p : String)
    (d : Int) (hA : A ≠ "") (hB : B ≠ "") (hAB : A ≠ B)
    (hk : A ++ " -> " ++ B ≠ B ++ " -> " ++ A) :
    ((analytics [(A, fc), (B, tc)]
      [mkJourney A B p d, mkJourney A B p d, mkJourney A B p d,
       mkJourney B A p d, mkJourney B A p d]).routes.map
        fun r => (r.«from», r.«to», r.count)) = [(A, B, 3), (B, A, 2)] := by
  have e1 : (A == B) = false := by simp [hAB]
  have e2 : (B == A) = false := by simp [Ne.symm hAB]
  have eA : (A == "") = false := by simp [hA]
  have eB : (B == "") = false := by simp [hB]
  have k1 : (A ++ " -> " ++ B == B ++ " -> " ++ A) = false := by simp [hk]
  have k2 : (B ++ " -> " ++ A == A ++ " -> " ++ B) = false := by
    simp [Ne.symm hk]
  simp [analytics, analyticsStep, mkJourney, mapGet, mapSet, setAdd, listHas,
    jsSortBy, sortInsert, e1, e2, eA, eB, k1, k2]

theorem analytics_route_direction_witness :
    ((analytics [("A", ⟨1, 2⟩), ("B", ⟨3, 4⟩)]
      [mkJourney "A" "B" "P" 0, mkJourney "A" "B" "P" 0, mkJourney "A" "B" "P" 0,
       mkJourney "B" "A" "P" 0, mkJourney "B" "A" "P" 0]).routes.map
        fun r => (r.«from», r.«to», r.count)) = [("A", "B", 3), ("B", "A", 2)] :=
  analytics_route_direction "A" "B" ⟨1, 2⟩ ⟨3, 4⟩ "P" 0 (by decide) (by decide)
    (by decide) (by decide)

theorem listHas_eq_false_iff (l : List String) (x : String) :
    listHas l x = false ↔ x ∉ l := by
  rw [← listHas_iff_mem]
  simp

theorem tripMatches_true_iff (st : FilterState) (q : String) (trip : Trip)
    (s e : Int) (hs : st.dateStart = some s) (he : st.dateEnd = some e) :
    tripMatches st q trip = true ↔
      ((trip.transactie = "Reis" ∨ st.includeNonTrips = true) ∧
       st.selectedProducts ≠ [] ∧
       trip.product ∈ st.selectedProducts ∧
       s ≤ trip.date ∧ trip.date ≤ e ∧
       (q ≠ "" → strIncludes (jsToLower (trip.«from» ++ " " ++ trip.«to»)) q
          = true)) := by
  unfold tripMatches
  rw [hs, he]
  split_ifs with h1 h2 h3 h4 h5 h6
  · simp only [Bool.and_eq_true, Bool.not_eq_true', bne_iff_ne, ne_eq] at h1
    simp [h1.1, h1.2]
  · simp only [List.isEmpty_iff] at h2
    simp [h2]
  · simp only [Bool.not_eq_true', listHas_eq_false_iff] at h3
    simp [h3]
  · simp only [decide_eq_true_eq] at h4
    constructor
    · intro h; cases h
    · rintro ⟨-, -, -, hds, -⟩; omega
  · simp only [decide_eq_true_eq] at h5
    constructor
    · intro h; cases h
    · rintro ⟨-, -, -, -, hde, -⟩; omega
  · simp only [Bool.not_eq_true, Bool.and_eq_false_iff, Bool.not_eq_false',
      bne_eq_false_iff_eq] at h1
    simp only [List.isEmpty_iff] at h2
    simp only [Bool.not_eq_true, Bool.not_eq_false', listHas_iff_mem] at h3
    simp only [decide_eq_true_eq, not_lt] at h4 h5
    simp only [bne_iff_ne, ne_eq] at h6
    constructor
    · intro hinc
      refine ⟨by tauto, h2, h3, h4, h5, fun _ => hinc⟩
    · rintro ⟨-, -, -, -, -, hq⟩
      exact hq h6
  · simp only [Bool.not_eq_true, Bool.and_eq_false_iff, Bool.not_eq_false',
      bne_eq_false_iff_eq] at h1
    simp only [List.isEmpty_iff] at h2
    simp only [Bool.not_eq_true, Bool.not_eq_false', listHas_iff_mem] at h3
    simp only [decide_eq_true_eq, not_lt] at h4 h5
    simp only [Bool.not_eq_true, bne_eq_false_iff_eq] at h6
    simp only [true_iff]
    exact ⟨by tauto, h2, h3, h4, h5, fun hq => absurd h6 hq⟩

/-- C1 counterexample: the code lowercases and trims the search text before
matching, while the claim uses the untrimmed search text.  For the search
text `" a"` and a trip from "a" to "b" that passes every other condition,
the trip is in the filtered list (the trimmed query "a" matches) although
the claimed condition fails (`" a"` is not a substring of `"a b"`), so the
claimed equivalence is false. -/
theorem filteredTrips_claim_counterexample :
    ¬ (({ id := "", date := 5, dateLabel := "", checkIn := "", checkOut := "",
          «from» := "a", «to» := "b", transactie := "Reis", product := "P",
          «class» := "", note := "" } : Trip) ∈
        filteredTrips
          { includeNonTrips := false, selectedProducts := ["P"],
            dateStart := some 0, dateEnd := some 10, search := " a" }
          [{ id := "", date := 5, dateLabel := "", checkIn := "", checkOut := "",
             «from» := "a", «to» := "b", transactie := "Reis", product := "P",
             «class» := "", note := "" }] ↔
      ((("Reis" : String) = "Reis" ∨ false = true) ∧
       (["P"] : List String) ≠ [] ∧
       ("P" : String) ∈ (["P"] : List String) ∧
       (0 : Int) ≤ 5 ∧ (5 : Int) ≤ 10 ∧
       ((" a" : String) ≠ "" →
         strIncludes (jsToLower ("a" ++ " " ++ "b")) (jsToLower " a") = true))) := by
  decide

/-- C1 (amended): for every filter state with both date bounds set, a trip of
the trip list is in the filtered list iff its transaction type is "Reis" or
the include-non-journey flag is on, the accepted product set is non-empty
and contains its product, its date lies in the inclusive range, and — when
the *trimmed* search text is non-empty — the trimmed lowercased search text
is a substring of the lowercased "origin destination" concatenation.
Moreover an empty accepted-product set yields an empty filtered list and
empty route, stop, product and missing aggregates. -/
theorem filteredTrips_characterization (st : FilterState)
    (coords : List (String × Coord)) (ts : List Trip) (trip : Trip) (s e : Int)
    (hs : st.dateStart = some s) (he : st.dateEnd = some e) (hmem : trip ∈ ts) :
    (trip ∈ filteredTrips st ts ↔
      ((trip.transactie = "Reis" ∨ st.includeNonTrips = true) ∧
       st.selectedProducts ≠ [] ∧
       trip.product ∈ st.selectedProducts ∧
       s ≤ trip.date ∧ trip.date ≤ e ∧
       (jsTrim st.search ≠ "" →
         strIncludes (jsToLower (trip.«from» ++ " " ++ trip.«to»))
           (jsToLower (jsTrim st.search)) = true))) ∧
    (st.selectedProducts = [] →
      filteredTrips st ts = [] ∧
      analytics coords (filteredTrips st ts) = ⟨[], [], [], []⟩) := by
  constructor
  · rw [filteredTrips, List.mem_filter]
    have hq : (jsToLower (jsTrim st.search) ≠ "") ↔ (jsTrim st.search ≠ "") := by
      constructor
      · intro h hc
        exact h (by rw [hc]; rfl)
      · intro h hc
        apply h
        have : (jsTrim st.search).toList.map Char.toLower = [] := by
          have := congrArg String.toList hc
          simpa [jsToLower] using this
        have hnil : (jsTrim st.search).toList = [] := by
          cases hl : (jsTrim st.search).toList with
          | nil => rfl
          | cons c cs => rw [hl] at this; cases this
        cases hjt : jsTrim st.search with
        | mk l => rw [hjt] at hnil; simp at hnil; rw [hnil]
    rw [tripMatches_true_iff st (jsToLower (jsTrim st.search)) trip s e hs he]
    simp only [hmem, true_and, hq]
  · intro hempty
    have hnil : filteredTrips st ts = [] := by
      rw [filteredTrips, List.filter_eq_nil_iff]
      intro a _
      unfold tripMatches
      rw [hempty]
      simp
    rw [hnil]
    exact ⟨rfl, rfl⟩

theorem filteredTrips_characterization_witness :
    (({ id := "", date := 5, dateLabel := "", checkIn := "", checkOut := "",
        «from» := "a", «to» := "b", transactie := "Reis", product := "P",
        «class» := "", note := "" } : Trip) ∈
      filteredTrips
        { includeNonTrips := false, selectedProducts := ["P"],
          dateStart := some 0, dateEnd := some 10, search := "" }
        [{ id := "", date := 5, dateLabel := "", checkIn := "", checkOut := "",
           «from» := "a", «to» := "b", transactie := "Reis", product := "P",
           «class» := "", note := "" }]) :=
  (filteredTrips_characterization
    { includeNonTrips := false, selectedProducts := ["P"],
      dateStart := some 0, dateEnd := some 10, search := "" } [] _ _ 0 10
    rfl rfl (List.mem_singleton.mpr rfl)).1.mpr (by decide)

/-- C10: `parseDate` rejects a `Datum` value exactly when one of the first
three `-`-separated components is missing, non-numeric or zero (JS falsy
after `Number`); any three non-zero numeric components are accepted even
when they form no valid calendar date, because `new Date(year, month-1,
day)` rolls out-of-range components over into adjacent months/years — e.g.
day 31 of the 30-day November 2025 parses to 1 December 2025 and month 13
of 2025 to 1 January 2026 — and such rows are kept by the `trips` pipeline
under the rolled-over date. -/
theorem parseDate_rollover_acceptance :
    (∀ v : String,
      parseDate v = none ↔
        (compFalsy ((splitOnChar '-' v).map jsNumber)[0]? = true ∨
         compFalsy ((splitOnChar '-' v).map jsNumber)[1]? = true ∨
         compFalsy ((splitOnChar '-' v).map jsNumber)[2]? = true)) ∧
    parseDate "31-11-2025" = some (daysFromCivil 2025 12 1) ∧
    parseDate "1-13-2025" = some (daysFromCivil 2026 1 1) ∧
    trips [{ datum := "31-11-2025", checkIn := "10:00", checkOut := "11:00",
             vertrek := "Aaa", bestemming := "Bbb", transactie := "Reis",
             product := "P", kl := "2", opmerking := "" }] =
      [{ id := "31-11-2025-10:00-0", date := daysFromCivil 2025 12 1,
         dateLabel := "31-11-2025", checkIn := "10:00", checkOut := "11:00",
         «from» := "Aaa", «to» := "Bbb", transactie := "Reis", product := "P",
         «class» := "2", note := "" }] := by
  refine ⟨?_, by decide, by decide, by decide⟩
  intro v
  unfold parseDate
  by_cases hv : v = ""
  · subst hv
    decide
  · have hbv : (v == "") = false := by simp [hv]
    simp only [hbv, Bool.false_eq_true, if_false]
    rcases h0 : ((splitOnChar '-' v).map jsNumber)[0]? with _ | (_ | d) <;>
      rcases h1 : ((splitOnChar '-' v).map jsNumber)[1]? with _ | (_ | m) <;>
        rcases h2 : ((splitOnChar '-' v).map jsNumber)[2]? with _ | (_ | y) <;>
          simp only [compFalsy] <;> try simp
    tauto

end TravelLines
